import Mathlib

/-!
Verification of the geometric path-construction engine of the VISUINO
repository (trunk/visuino/gx/shapes/shapes.py): the CornerPath and
NotchPath constructors and the outline-assembly routine
GxExamplePaths.updateMetrics.

Coordinates are modelled as exact rationals (the spec treats them as
real-valued); Python strings are modelled as Lean strings, with the
handful of Python string operations the source uses (lower, strip,
split, count) reimplemented over the character list so that concrete
computations reduce in the kernel.

The path-building primitive GxPainterPath lives in visuino/gx/bases.py,
which is not part of the provided sources; its operations are modelled
from the spec (section 4.1 RelativePath), as is the argument-validation
helper validate_arg (visuino/utils.py) and the numeric parsing done by
Python's float().
-/

/- ------------------------------------------------------------------ -/
/- Python string primitives                                           -/
/- ------------------------------------------------------------------ -/

/-- Model of Python str.lower() (the source only lowercases ASCII
enumeration words such as direction and facing names). -/
def pyLower (s : String) : String := ⟨s.data.map Char.toLower⟩

/-- Whitespace recognized by the model of Python str.strip(). -/
def isPySpace (c : Char) : Bool := c = ' ' ∨ c = '\t' ∨ c = '\n' ∨ c = '\r'

/-- Model of Python str.strip() on a character list. -/
def pyStrip (l : List Char) : List Char :=
  ((l.dropWhile isPySpace).reverse.dropWhile isPySpace).reverse

/-- Model of Python str.split('/'): fields of a character list between
occurrences of the slash separator. -/
def splitOnSlash : List Char → List (List Char)
  | [] => [[]]
  | c :: cs =>
    match splitOnSlash cs with
    | [] => [[c]]
    | h :: t => if c = '/' then [] :: h :: t else (c :: h) :: t

/-- Numeric value of a list of decimal digit characters. -/
def digitsToNat (l : List Char) : ℕ :=
  l.foldl (fun a c => 10 * a + (c.toNat - 48)) 0

/-- Modelled from the spec: the factor text of a NotchPath shape string
"must be a real number"; this models the conversion Python's float()
performs on it, as an exact rational.  It accepts an optionally signed
decimal numeral (digits with an optional decimal point), surrounded by
optional whitespace; scientific notation, infinities, NaN and digit
separators are outside the spec's "real number between 0.0 and 1.0" and
are not modelled. -/
def parsePyFloat (l : List Char) : Option ℚ :=
  let l1 := pyStrip l
  let signAndRest : ℚ × List Char :=
    match l1 with
    | '+' :: r => (1, r)
    | '-' :: r => (-1, r)
    | r => (1, r)
  let sgn := signAndRest.1
  let l2 := signAndRest.2
  let ip := l2.takeWhile Char.isDigit
  let rest := l2.dropWhile Char.isDigit
  match rest with
  | [] => if ip = [] then none else some (sgn * digitsToNat ip)
  | '.' :: fp =>
    if fp.all Char.isDigit ∧ (ip ≠ [] ∨ fp ≠ []) then
      some (sgn * ((digitsToNat ip : ℚ) + (digitsToNat fp : ℚ) / (10 : ℚ) ^ fp.length))
    else none
  | _ => none

/- ------------------------------------------------------------------ -/
/- Points, sizes, angles                                              -/
/- ------------------------------------------------------------------ -/

/-- A 2D point with exact rational coordinates (models QPointF). -/
@[ext]
structure Pnt where
  x : ℚ
  y : ℚ
deriving DecidableEq, Repr

instance : Add Pnt := ⟨fun a b => ⟨a.x + b.x, a.y + b.y⟩⟩

theorem Pnt.add_def (a b : Pnt) : a + b = ⟨a.x + b.x, a.y + b.y⟩ := rfl

/-- A 2D size with exact rational dimensions (models QSizeF).  Following
the spec, width and height are not constrained to be nonnegative. -/
@[ext]
structure Siz where
  w : ℚ
  h : ℚ
deriving DecidableEq, Repr

/-- Cosine of an integer number of degrees, exact at the quarter-turn
angles.  Every angle the embedded program passes to arcTo (start, sweep
and their sum) is a multiple of 90 degrees, which is where this function
is meaningful; other residues never arise from the program and are
mapped to 0. -/
def qcos (a : ℤ) : ℚ :=
  match a.emod 360 with
  | 0 => 1
  | 90 => 0
  | 180 => -1
  | 270 => 0
  | _ => 0

/-- Sine of an integer number of degrees, exact at the quarter-turn
angles; see qcos. -/
def qsin (a : ℤ) : ℚ :=
  match a.emod 360 with
  | 0 => 0
  | 90 => 1
  | 180 => 0
  | 270 => -1
  | _ => 0

/-- Point of the axis-aligned ellipse inscribed in the box with origin
(x0, y0) and size (w0, h0), at the given angle in degrees.  Modelled
from the spec: angles have 0 degrees = East and positive sweep =
counter-clockwise in the standard painter-path convention, whose y axis
grows downward; hence the terminal point of an arc at angle theta is
(cx + rx*cos theta, cy - ry*sin theta).  (The spec's section 4.1 writes
the y coordinate with a plus sign, but that contradicts its own stated
painter-path convention and its own post-conditions in sections 4.2,
4.3 and 8, which hold only with the minus sign used here.) -/
def arcPointAt (x0 y0 w0 h0 : ℚ) (ang : ℤ) : Pnt :=
  ⟨x0 + w0 / 2 + (w0 / 2) * qcos ang, y0 + h0 / 2 - (h0 / 2) * qsin ang⟩

/- ------------------------------------------------------------------ -/
/- GxPainterPath: the relative-path primitive                         -/
/- ------------------------------------------------------------------ -/

/-- One resolved (absolute) path command, as accumulated by a
GxPainterPath: either a straight segment to an absolute point, or an
elliptical arc given by its absolute bounding box, start angle and
sweep angle in degrees. -/
inductive PathElem where
  | lineTo (p : Pnt)
  | arcSeg (x0 y0 w0 h0 : ℚ) (a1 sweep : ℤ)
deriving DecidableEq, Repr

/-- Modelled from the spec (section 4.1 RelativePath; the source class
GxPainterPath in visuino/gx/bases.py is not among the provided files):
a path owns its start point, its current cursor position, and the
ordered list of resolved absolute path commands. -/
@[ext]
structure GxPainterPath where
  start : Pnt
  cur : Pnt
  elems : List PathElem
deriving DecidableEq, Repr

/-- Modelled from the spec: creating a path initializes the cursor to
the start point with an empty command list. -/
def GxPainterPath.new (p : Pnt) : GxPainterPath := ⟨p, p, []⟩

/-- Modelled from the spec: lineToInc appends a straight segment from
the cursor to cursor + (dx, dy) and advances the cursor. -/
def GxPainterPath.lineToInc (pa : GxPainterPath) (dx dy : ℚ) : GxPainterPath :=
  let c := Pnt.mk (pa.cur.x + dx) (pa.cur.y + dy)
  ⟨pa.start, c, pa.elems ++ [.lineTo c]⟩

/-- Modelled from the spec: arcTo appends an elliptical arc inscribed
in the given absolute axis-aligned box, starting at a1 degrees and
sweeping sweep degrees, and advances the cursor to the arc's terminal
point at angle a1 + sweep.  The box coordinates are caller-absolute:
the shape code derives them from the current cursor.  (Every arc the
shape code emits begins exactly at the current cursor, so no connecting
segment is involved.) -/
def GxPainterPath.arcTo (pa : GxPainterPath) (x0 y0 w0 h0 : ℚ) (a1 sweep : ℤ) :
    GxPainterPath :=
  ⟨pa.start, arcPointAt x0 y0 w0 h0 (a1 + sweep), pa.elems ++ [.arcSeg x0 y0 w0 h0 a1 sweep]⟩

/-- Translation of a resolved path command by an offset. -/
def PathElem.translate (d : Pnt) : PathElem → PathElem
  | .lineTo p => .lineTo (p + d)
  | .arcSeg x0 y0 w0 h0 a s => .arcSeg (x0 + d.x) (y0 + d.y) w0 h0 a s

/-- Modelled from the spec: connectPath appends all of the other path's
commands, translated so that the other path's start point coincides
with this path's current cursor, and advances the cursor to the other
path's (translated) final cursor. -/
def GxPainterPath.connectPath (pa other : GxPainterPath) : GxPainterPath :=
  let d : Pnt := ⟨pa.cur.x - other.start.x, pa.cur.y - other.start.y⟩
  ⟨pa.start, other.cur + d, pa.elems ++ other.elems.map (PathElem.translate d)⟩

/-- Model of currentPosition(). -/
def GxPainterPath.currentPosition (pa : GxPainterPath) : Pnt := pa.cur

/-- Endpoints contributed by one resolved command to the bounding-box
computation.  All arcs emitted by the program sweep exactly 90 degrees
between quarter-turn angles; on such an arc both coordinates are
monotone, so the arc's extrema are attained at its two endpoints. -/
def PathElem.endPoints : PathElem → List Pnt
  | .lineTo p => [p]
  | .arcSeg x0 y0 w0 h0 a s => [arcPointAt x0 y0 w0 h0 a, arcPointAt x0 y0 w0 h0 (a + s)]

/-- All resolved points of a path, used for its bounding box. -/
def GxPainterPath.resolvedPoints (pa : GxPainterPath) : List Pnt :=
  pa.start :: pa.elems.flatMap PathElem.endPoints

/-- Modelled from the spec: width of the minimal axis-aligned box
containing all resolved points of the path. -/
def GxPainterPath.bbWidth (pa : GxPainterPath) : ℚ :=
  (pa.resolvedPoints.foldl (fun m p => max m p.x) pa.start.x) -
    (pa.resolvedPoints.foldl (fun m p => min m p.x) pa.start.x)

/-- Modelled from the spec: height of the minimal axis-aligned box
containing all resolved points of the path. -/
def GxPainterPath.bbHeight (pa : GxPainterPath) : ℚ :=
  (pa.resolvedPoints.foldl (fun m p => max m p.y) pa.start.y) -
    (pa.resolvedPoints.foldl (fun m p => min m p.y) pa.start.y)

/- ------------------------------------------------------------------ -/
/- CornerPath                                                         -/
/- ------------------------------------------------------------------ -/

def CornerPath.VALID_KINDS : List String :=
  ["bottom-left", "bottom-right", "top-left", "top-right"]

def CornerPath.VALID_SHAPES : List String := ["trig", "arc", "rect"]

/-- The 24-case dispatch of CornerPath.__init__ (shapes.py lines
73-142), translated branch for branch.  The unreachable fall-through
(a validated kind and shape never misses every branch) leaves the bare
path, as the Python code would. -/
def cornerGeometry (start : Pnt) (sz : Siz) (shape kind : String) (clockwise : Bool) :
    GxPainterPath :=
  let W := sz.w
  let H := sz.h
  let p0 := GxPainterPath.new start
  if shape = "trig" then
    if clockwise then
      if kind = "top-right" then p0.lineToInc W H
      else if kind = "bottom-right" then p0.lineToInc (-W) H
      else if kind = "bottom-left" then p0.lineToInc (-W) (-H)
      else if kind = "top-left" then p0.lineToInc W (-H)
      else p0
    else
      if kind = "top-left" then p0.lineToInc (-W) H
      else if kind = "bottom-left" then p0.lineToInc W H
      else if kind = "bottom-right" then p0.lineToInc W (-H)
      else if kind = "top-right" then p0.lineToInc (-W) (-H)
      else p0
  else if shape = "arc" then
    if clockwise then
      if kind = "top-right" then
        p0.arcTo (p0.cur.x - W) p0.cur.y (2 * W) (2 * H) (-270) (-90)
      else if kind = "bottom-right" then
        p0.arcTo (p0.cur.x - 2 * W) (p0.cur.y - H) (2 * W) (2 * H) 0 (-90)
      else if kind = "bottom-left" then
        p0.arcTo (p0.cur.x - W) (p0.cur.y - 2 * H) (2 * W) (2 * H) (-90) (-90)
      else if kind = "top-left" then
        p0.arcTo p0.cur.x (p0.cur.y - H) (2 * W) (2 * H) (-180) (-90)
      else p0
    else
      if kind = "top-left" then
        p0.arcTo (p0.cur.x - W) p0.cur.y (2 * W) (2 * H) 90 90
      else if kind = "bottom-left" then
        p0.arcTo p0.cur.x (p0.cur.y - H) (2 * W) (2 * H) 180 90
      else if kind = "bottom-right" then
        p0.arcTo (p0.cur.x - W) (p0.cur.y - 2 * H) (2 * W) (2 * H) 270 90
      else if kind = "top-right" then
        p0.arcTo (p0.cur.x - 2 * W) (p0.cur.y - H) (2 * W) (2 * H) 0 90
      else p0
  else if shape = "rect" then
    if clockwise then
      if kind = "top-right" then (p0.lineToInc W 0).lineToInc 0 H
      else if kind = "bottom-right" then (p0.lineToInc 0 H).lineToInc (-W) 0
      else if kind = "bottom-left" then (p0.lineToInc (-W) 0).lineToInc 0 (-H)
      else if kind = "top-left" then (p0.lineToInc 0 (-H)).lineToInc W 0
      else p0
    else
      if kind = "top-left" then (p0.lineToInc (-W) 0).lineToInc 0 H
      else if kind = "bottom-left" then (p0.lineToInc 0 H).lineToInc W 0
      else if kind = "bottom-right" then (p0.lineToInc W 0).lineToInc 0 (-H)
      else if kind = "top-right" then (p0.lineToInc 0 (-H)).lineToInc (-W) 0
      else p0
  else p0

/-- CornerPath.__init__ (shapes.py lines 62-142).  The validate_arg
calls on kind and shape (visuino/utils.py, not among the provided
files) are modelled from the spec: a value outside its closed
enumeration fails construction with InvalidArgument, modelled as none.
The source lowercases kind and shape only after validating them against
the all-lowercase enumerations, so the lowercasing is the identity on
every validated value and is dropped here. -/
def CornerPath (start : Pnt) (sz : Siz) (shape kind : String) (clockwise : Bool) :
    Option GxPainterPath :=
  if kind ∈ CornerPath.VALID_KINDS ∧ shape ∈ CornerPath.VALID_SHAPES then
    some (cornerGeometry start sz shape kind clockwise)
  else none

/- ------------------------------------------------------------------ -/
/- NotchPath                                                          -/
/- ------------------------------------------------------------------ -/

def NotchPath.VALID_SHAPES : List String := ["trig/%f", "arc/%f"]

def NotchPath.VALID_DIRECTIONS : List String := ["+i", "-i", "+j", "-j"]

/-- The shape names accepted by NotchPath: the part of each member of
VALID_SHAPES before the slash (shapes.py line 209). -/
def NotchPath.validNames : List String :=
  NotchPath.VALID_SHAPES.map (fun s => ⟨(splitOnSlash s.data).headD []⟩)

/-- The test the source performs as direction[1] == 'j' on the
(validated, lowercased) direction string. -/
def secondCharIsJ (s : String) : Bool := s.data.getD 1 ' ' = 'j'

/-- Parsing and validation of the NotchPath shape argument (shapes.py
lines 209-224): the stripped string is either a bare valid shape name,
or fields separated by slashes of which only the first (a valid shape
name, stripped) and the second (the top factor: empty means 0.0,
otherwise it must parse as a number in [0.0, 1.0]) are examined.
Returns the shape name and the top factor tf, or none where the source
raises.  parseNameFactor is the part of that logic handling the first
two slash-separated fields (shapes.py lines 217-224). -/
def parseNameFactor (n f : List Char) : Option (String × ℚ) :=
  if (⟨pyStrip n⟩ : String) ∈ NotchPath.validNames then
    match (if pyStrip f = [] then some (0 : ℚ) else parsePyFloat f) with
    | none => none
    | some tf => if 0 ≤ tf ∧ tf ≤ 1 then some (⟨pyStrip n⟩, tf) else none
  else none

def parseNotchShape (shape : String) : Option (String × ℚ) :=
  let l := pyStrip shape.data
  let sp := splitOnSlash l
  if sp.length = 1 then
    if (⟨l⟩ : String) ∈ NotchPath.validNames then some (⟨l⟩, 0) else none
  else
    parseNameFactor (sp.headD []) (sp.getD 1 [])

/-- The 16-case geometric dispatch of NotchPath.__init__ (shapes.py
lines 226-314), translated branch for branch, for an already validated
and lowercased direction and facing and an already parsed shape name
and top factor.  The unreachable fall-throughs leave the bare path, as
the Python code would. -/
def notchGeometry (start : Pnt) (sz : Siz) (name : String) (tf : ℚ)
    (dir facing : String) : GxPainterPath :=
  let W := sz.w
  let H := sz.h
  let tl := if secondCharIsJ dir then tf * H else tf * W
  let ts := if secondCharIsJ dir then (H - tl) / 2 else (W - tl) / 2
  let p0 := GxPainterPath.new start
  if name = "trig" then
    if dir = "+j" then
      if facing = "left" then
        ((p0.lineToInc (-W) ts).lineToInc 0 tl).lineToInc W ts
      else if facing = "right" then
        ((p0.lineToInc W ts).lineToInc 0 tl).lineToInc (-W) ts
      else p0
    else if dir = "-j" then
      if facing = "left" then
        ((p0.lineToInc (-W) (-ts)).lineToInc 0 (-tl)).lineToInc W (-ts)
      else if facing = "right" then
        ((p0.lineToInc W (-ts)).lineToInc 0 (-tl)).lineToInc (-W) (-ts)
      else p0
    else if dir = "+i" then
      if facing = "up" then
        ((p0.lineToInc ts (-H)).lineToInc tl 0).lineToInc ts H
      else if facing = "down" then
        ((p0.lineToInc ts H).lineToInc tl 0).lineToInc ts (-H)
      else p0
    else if dir = "-i" then
      if facing = "up" then
        ((p0.lineToInc (-ts) (-H)).lineToInc (-tl) 0).lineToInc (-ts) H
      else if facing = "down" then
        ((p0.lineToInc (-ts) H).lineToInc (-tl) 0).lineToInc (-ts) (-H)
      else p0
    else p0
  else if name = "arc" then
    if dir = "+j" then
      if facing = "left" then
        let q1 := p0.arcTo (p0.cur.x - W) p0.cur.y (2 * W) (2 * ts) 90 90
        let q2 := q1.lineToInc 0 tl
        q2.arcTo q2.cur.x (q2.cur.y - ts) (2 * W) (2 * ts) 180 90
      else if facing = "right" then
        let q1 := p0.arcTo (p0.cur.x - W) p0.cur.y (2 * W) (2 * ts) 90 (-90)
        let q2 := q1.lineToInc 0 tl
        q2.arcTo (q2.cur.x - 2 * W) (q2.cur.y - ts) (2 * W) (2 * ts) 0 (-90)
      else p0
    else if dir = "-j" then
      if facing = "left" then
        let q1 := p0.arcTo (p0.cur.x - W) (p0.cur.y - 2 * ts) (2 * W) (2 * ts) (-90) (-90)
        let q2 := q1.lineToInc 0 (-tl)
        q2.arcTo q2.cur.x (q2.cur.y - ts) (2 * W) (2 * ts) 180 (-90)
      else if facing = "right" then
        let q1 := p0.arcTo (p0.cur.x - W) (p0.cur.y - 2 * ts) (2 * W) (2 * ts) (-90) 90
        let q2 := q1.lineToInc 0 (-tl)
        q2.arcTo (q2.cur.x - 2 * W) (q2.cur.y - ts) (2 * W) (2 * ts) 0 90
      else p0
    else if dir = "+i" then
      if facing = "up" then
        let q1 := p0.arcTo p0.cur.x (p0.cur.y - H) (2 * ts) (2 * H) 180 (-90)
        let q2 := q1.lineToInc tl 0
        q2.arcTo (q2.cur.x - ts) q2.cur.y (2 * ts) (2 * H) 90 (-90)
      else if facing = "down" then
        let q1 := p0.arcTo p0.cur.x (p0.cur.y - H) (2 * ts) (2 * H) 180 90
        let q2 := q1.lineToInc tl 0
        q2.arcTo (q2.cur.x - ts) (q2.cur.y - 2 * H) (2 * ts) (2 * H) (-90) 90
      else p0
    else if dir = "-i" then
      if facing = "up" then
        let q1 := p0.arcTo (p0.cur.x - 2 * ts) (p0.cur.y - H) (2 * ts) (2 * H) 0 90
        let q2 := q1.lineToInc (-tl) 0
        q2.arcTo (q2.cur.x - ts) q2.cur.y (2 * ts) (2 * H) 90 90
      else if facing = "down" then
        let q1 := p0.arcTo (p0.cur.x - 2 * ts) (p0.cur.y - H) (2 * ts) (2 * H) 0 (-90)
        let q2 := q1.lineToInc (-tl) 0
        q2.arcTo (q2.cur.x - ts) (q2.cur.y - 2 * H) (2 * ts) (2 * H) (-90) (-90)
      else p0
    else p0
  else p0

/-- NotchPath construction for an already parsed shape name and top
factor, with every validate_arg check of NotchPath.__init__ (shapes.py
lines 195-224) applied: the (lowercased) direction must be a valid
direction, the (lowercased) facing must match the direction's axis, the
shape name must be a valid name and the top factor must lie in
[0.0, 1.0].  Expects dir and facing already lowercased; validate_arg
(not among the provided files) is modelled from the spec, a failed
check giving none. -/
def notchPathV (start : Pnt) (sz : Siz) (name : String) (tf : ℚ)
    (dir facing : String) : Option GxPainterPath :=
  if dir ∈ NotchPath.VALID_DIRECTIONS then
    if (if secondCharIsJ dir then facing ∈ (["left", "right"] : List String)
        else facing ∈ (["up", "down"] : List String)) then
      if name ∈ NotchPath.validNames ∧ 0 ≤ tf ∧ tf ≤ 1 then
        some (notchGeometry start sz name tf dir facing)
      else none
    else none
  else none

/-- NotchPath.__init__ (shapes.py lines 190-314): direction and facing
are lowercased before validation; the shape string is parsed and
validated by parseNotchShape; then the geometry is emitted.  The source
performs the direction and facing checks before parsing the shape
string, but every failing check raises the same way, so the composed
order used here is equivalent. -/
def NotchPath (start : Pnt) (sz : Siz) (shape dir facing : String) :
    Option GxPainterPath :=
  match parseNotchShape shape with
  | none => none
  | some (name, tf) => notchPathV start sz name tf (pyLower dir) (pyLower facing)

/- ------------------------------------------------------------------ -/
/- GxExamplePaths                                                     -/
/- ------------------------------------------------------------------ -/

/-- One record of GxExamplePaths.notch_data (shapes.py lines 341-348). -/
structure NotchData where
  shape : String
  base_fc : ℚ
  size : Siz
  facing : String
deriving DecidableEq, Repr

/-- The state of a GxExamplePaths item that updateMetrics reads and
writes: the four corner size and shape records, the four notch data
records, the border path and the derived width and height (shapes.py
lines 328-351).  The string-keyed Python dictionaries become one field
per key. -/
structure ExState where
  cs_tl : Siz
  cs_tr : Siz
  cs_bl : Siz
  cs_br : Siz
  csh_tl : String
  csh_tr : String
  csh_bl : String
  csh_br : String
  nd_top : NotchData
  nd_bottom : NotchData
  nd_left : NotchData
  nd_right : NotchData
  border_path : Option GxPainterPath
  width : ℚ
  height : ℚ
deriving DecidableEq, Repr

/-- The initial state built by GxExamplePaths.__init__ (shapes.py lines
334-350): 50 x 50 arc corners, arc notches with base factor 0.7, notch
sizes 200 x 50 (top and bottom) and 50 x 150 (left and right), width
and height from DEFAULT_SIZE, and no border path yet. -/
def defaultExState : ExState where
  cs_tl := ⟨50, 50⟩
  cs_tr := ⟨50, 50⟩
  cs_bl := ⟨50, 50⟩
  cs_br := ⟨50, 50⟩
  csh_tl := "arc"
  csh_tr := "arc"
  csh_bl := "arc"
  csh_br := "arc"
  nd_top := ⟨"arc", 7 / 10, ⟨200, 50⟩, "up"⟩
  nd_bottom := ⟨"arc", 7 / 10, ⟨200, 50⟩, "up"⟩
  nd_left := ⟨"arc", 7 / 10, ⟨50, 150⟩, "right"⟩
  nd_right := ⟨"arc", 7 / 10, ⟨50, 150⟩, "right"⟩
  border_path := none
  width := 200
  height := 100

/-- GxExamplePaths.getNotch (shapes.py lines 368-374): builds the
NotchPath for one notch record, starting at the running path's current
cursor.  The source passes the shape as the string
notch_data[notch]['shape'] + '/' + str(notch_data[notch]['base_fc'])
and NotchPath parses it back; since Python's str of a float
round-trips, this is modelled by handing the (stripped) shape name and
the factor to the parsed-shape constructor directly, which applies the
same validations (name in the valid set, factor in [0.0, 1.0]). -/
def getNotch (path : GxPainterPath) (nd : NotchData) (dir : String) :
    Option GxPainterPath :=
  notchPathV path.currentPosition nd.size (⟨pyStrip nd.shape.data⟩ : String)
    nd.base_fc (pyLower dir) (pyLower nd.facing)

/-- The border path assembled by GxExamplePaths.updateMetrics
(shapes.py lines 384-406): starting from (100, 0), the top edge, top
notch (+i), top edge, top-right corner, right edge, right notch (+j),
right edge, bottom-right corner, bottom edge (-i), bottom notch, bottom
edge, bottom-left corner, left edge (-j), left notch, left edge and
top-left corner, every notch and corner starting at the running path's
current position.  A validation failure in any constructor propagates
(the Python exception becomes none). -/
def buildBorder (st : ExState) : Option GxPainterPath := do
  let p0 := GxPainterPath.new ⟨100, 0⟩
  let p1 := p0.lineToInc 100 0
  let n1 ← getNotch p1 st.nd_top "+i"
  let p2 := (p1.connectPath n1).lineToInc 100 0
  let c1 ← CornerPath p2.currentPosition st.cs_tr st.csh_tr "top-right" true
  let p3 := (p2.connectPath c1).lineToInc 0 50
  let n2 ← getNotch p3 st.nd_right "+j"
  let p4 := (p3.connectPath n2).lineToInc 0 50
  let c2 ← CornerPath p4.currentPosition st.cs_br st.csh_br "bottom-right" true
  let p5 := (p4.connectPath c2).lineToInc (-100) 0
  let n3 ← getNotch p5 st.nd_bottom "-i"
  let p6 := (p5.connectPath n3).lineToInc (-100) 0
  let c3 ← CornerPath p6.currentPosition st.cs_bl st.csh_bl "bottom-left" true
  let p7 := (p6.connectPath c3).lineToInc 0 (-50)
  let n4 ← getNotch p7 st.nd_left "-j"
  let p8 := (p7.connectPath n4).lineToInc 0 (-50)
  let c4 ← CornerPath p8.currentPosition st.cs_tl st.csh_tl "top-left" true
  pure (p8.connectPath c4)

/-- GxExamplePaths.updateMetrics (shapes.py lines 376-412): rebuilds
the border path from the current parameter records and stores it
together with the rebuilt path's bounding-box width and height. -/
def updateMetrics (st : ExState) : Option ExState :=
  match buildBorder st with
  | none => none
  | some p =>
    some { st with border_path := some p, width := p.bbWidth, height := p.bbHeight }

/- ------------------------------------------------------------------ -/
/- Spec-side definitions used by the claims                           -/
/- ------------------------------------------------------------------ -/

/-- The corner-rectangle opposite-vertex offset, from the spec's
post-condition for CornerPath, as a function of kind, winding and size
(the winding dependence is the amendment established below). -/
def cornerVertexOffset (kind : String) (clockwise : Bool) (sz : Siz) : Pnt :=
  if clockwise then
    if kind = "top-right" then ⟨sz.w, sz.h⟩
    else if kind = "bottom-right" then ⟨-sz.w, sz.h⟩
    else if kind = "bottom-left" then ⟨-sz.w, -sz.h⟩
    else if kind = "top-left" then ⟨sz.w, -sz.h⟩
    else ⟨0, 0⟩
  else
    if kind = "top-right" then ⟨-sz.w, -sz.h⟩
    else if kind = "bottom-right" then ⟨sz.w, -sz.h⟩
    else if kind = "bottom-left" then ⟨sz.w, sz.h⟩
    else if kind = "top-left" then ⟨-sz.w, sz.h⟩
    else ⟨0, 0⟩

/-- The spec's axisOffset for NotchPath: the full width or height of
the notch rectangle along the direction axis. -/
def axisOffset (dir : String) (sz : Siz) : Pnt :=
  if dir = "+i" then ⟨sz.w, 0⟩
  else if dir = "-i" then ⟨-sz.w, 0⟩
  else if dir = "+j" then ⟨0, sz.h⟩
  else if dir = "-j" then ⟨0, -sz.h⟩
  else ⟨0, 0⟩

/-- The absolute line commands produced by successive relative
displacements from a point. -/
def linesFromRel (c : Pnt) : List (ℚ × ℚ) → List PathElem
  | [] => []
  | d :: r =>
    let c2 : Pnt := ⟨c.x + d.1, c.y + d.2⟩
    PathElem.lineTo c2 :: linesFromRel c2 r

/-- The claimed 8-entry direction x facing table of relative segment
displacements for a 'trig' notch: a spacing leg, the parallel top of
length tl = factor * span, and a second spacing leg, with
ts = (span - tl) / 2 and span the size dimension along the direction
axis. -/
def trigNotchDeltas (dir facing : String) (sz : Siz) (tf : ℚ) : List (ℚ × ℚ) :=
  let W := sz.w
  let H := sz.h
  let span := if dir = "+j" ∨ dir = "-j" then H else W
  let tl := tf * span
  let ts := (span - tl) / 2
  if dir = "+j" ∧ facing = "left" then [(-W, ts), (0, tl), (W, ts)]
  else if dir = "+j" ∧ facing = "right" then [(W, ts), (0, tl), (-W, ts)]
  else if dir = "-j" ∧ facing = "left" then [(-W, -ts), (0, -tl), (W, -ts)]
  else if dir = "-j" ∧ facing = "right" then [(W, -ts), (0, -tl), (-W, -ts)]
  else if dir = "+i" ∧ facing = "up" then [(ts, -H), (tl, 0), (ts, H)]
  else if dir = "+i" ∧ facing = "down" then [(ts, H), (tl, 0), (ts, -H)]
  else if dir = "-i" ∧ facing = "up" then [(-ts, -H), (-tl, 0), (-ts, H)]
  else if dir = "-i" ∧ facing = "down" then [(-ts, H), (-tl, 0), (-ts, -H)]
  else []

/-- The claimed start-angle / sweep-angle table for 'arc' corners, in
degrees. -/
def cornerArcAngles (kind : String) (clockwise : Bool) : ℤ × ℤ :=
  if clockwise then
    if kind = "top-right" then (-270, -90)
    else if kind = "bottom-right" then (0, -90)
    else if kind = "bottom-left" then (-90, -90)
    else if kind = "top-left" then (-180, -90)
    else (0, 0)
  else
    if kind = "top-left" then (90, 90)
    else if kind = "bottom-left" then (180, 90)
    else if kind = "bottom-right" then (270, 90)
    else if kind = "top-right" then (0, 90)
    else (0, 0)

/-- The position of the 2W x 2H arc box of an 'arc' corner, as an
offset from the cursor at call time (the path's start point). -/
def cornerArcBoxOffset (kind : String) (clockwise : Bool) (sz : Siz) : Pnt :=
  let W := sz.w
  let H := sz.h
  if clockwise then
    if kind = "top-right" then ⟨-W, 0⟩
    else if kind = "bottom-right" then ⟨-2 * W, -H⟩
    else if kind = "bottom-left" then ⟨-W, -2 * H⟩
    else if kind = "top-left" then ⟨0, -H⟩
    else ⟨0, 0⟩
  else
    if kind = "top-left" then ⟨-W, 0⟩
    else if kind = "bottom-left" then ⟨0, -H⟩
    else if kind = "bottom-right" then ⟨-W, -2 * H⟩
    else if kind = "top-right" then ⟨-2 * W, -H⟩
    else ⟨0, 0⟩

/-- The spec's facing rule for NotchPath: facing must be up or down
for the horizontal directions and left or right for the vertical
ones (stated on lowercased values). -/
def facingMatches (dirL facL : String) : Prop :=
  ((dirL = "+i" ∨ dirL = "-i") ∧ (facL = "up" ∨ facL = "down")) ∨
    ((dirL = "+j" ∨ dirL = "-j") ∧ (facL = "left" ∨ facL = "right"))

/-- The spec's validity condition on the NotchPath shape string: the
stripped string is name[/factor[/...]] with a valid (stripped) name,
and the factor text, when present and nonempty, parses as a number in
[0.0, 1.0]. -/
def shapeTextOk (shape : String) : Prop :=
  let sp := splitOnSlash (pyStrip shape.data)
  match sp with
  | [] => False
  | [n] => (⟨n⟩ : String) ∈ NotchPath.validNames
  | n :: f :: _ =>
    (⟨pyStrip n⟩ : String) ∈ NotchPath.validNames ∧
      (pyStrip f = [] ∨ ∃ v : ℚ, parsePyFloat f = some v ∧ 0 ≤ v ∧ v ≤ 1)

/-- Keys for the four notch records of an ExState. -/
inductive NotchKey where
  | top | bottom | left | right
deriving DecidableEq, Repr

/-- Keys for the four corner records of an ExState. -/
inductive CornerKey where
  | tl | tr | bl | br
deriving DecidableEq, Repr

def ExState.notchData (st : ExState) : NotchKey → NotchData
  | .top => st.nd_top
  | .bottom => st.nd_bottom
  | .left => st.nd_left
  | .right => st.nd_right

def ExState.cornerSize (st : ExState) : CornerKey → Siz
  | .tl => st.cs_tl
  | .tr => st.cs_tr
  | .bl => st.cs_bl
  | .br => st.cs_br

def ExState.cornerShape (st : ExState) : CornerKey → String
  | .tl => st.csh_tl
  | .tr => st.csh_tr
  | .bl => st.csh_bl
  | .br => st.csh_br

/-- One step of the outline assembly as the spec describes it: a
straight edge piece, a notch inserted at the running cursor, or a
corner inserted at the running cursor. -/
inductive OutlineStep where
  | edge (dx dy : ℚ)
  | notch (k : NotchKey) (dir : String)
  | corner (k : CornerKey) (kind : String)
deriving Repr

/-- The spec's fixed assembly order (section 4.4): top edge, top notch
(+i), top edge, top-right corner, right edge, right notch (+j), right
edge, bottom-right corner, bottom edge (-i), bottom notch, bottom edge,
bottom-left corner, left edge (-j), left notch, left edge, top-left
corner. -/
def outlineSteps : List OutlineStep :=
  [.edge 100 0, .notch .top "+i", .edge 100 0, .corner .tr "top-right",
   .edge 0 50, .notch .right "+j", .edge 0 50, .corner .br "bottom-right",
   .edge (-100) 0, .notch .bottom "-i", .edge (-100) 0, .corner .bl "bottom-left",
   .edge 0 (-50), .notch .left "-j", .edge 0 (-50), .corner .tl "top-left"]

/-- Execution of one outline step on the running path; notch and corner
sub-paths are constructed at the running path's current cursor
position. -/
def runStep (st : ExState) (pa : GxPainterPath) : OutlineStep → Option GxPainterPath
  | .edge dx dy => some (pa.lineToInc dx dy)
  | .notch k dir => (getNotch pa (st.notchData k) dir).map pa.connectPath
  | .corner k kind =>
    (CornerPath pa.currentPosition (st.cornerSize k) (st.cornerShape k) kind true).map
      pa.connectPath

/-- The outline path as the spec describes it: the steps of
outlineSteps folded over a path starting at the fixed top-edge offset
(100, 0). -/
def runOutline (st : ExState) : Option GxPainterPath :=
  outlineSteps.foldlM (runStep st) (GxPainterPath.new ⟨100, 0⟩)

/-- The observable outcome of updateMetrics: the stored border path and
the propagated width and height. -/
def metricsView (st : ExState) : Option GxPainterPath × ℚ × ℚ :=
  (st.border_path, st.width, st.height)
/- ------------------------------------------------------------------ -/
/- Helper lemmas                                                      -/
/- ------------------------------------------------------------------ -/

theorem validNames_eq : NotchPath.validNames = ["trig", "arc"] := by decide

theorem qcos_0 : qcos 0 = 1 := by decide
theorem qcos_90 : qcos 90 = 0 := by decide
theorem qcos_180 : qcos 180 = -1 := by decide
theorem qcos_270 : qcos 270 = 0 := by decide
theorem qcos_360 : qcos 360 = 1 := by decide
theorem qcos_n90 : qcos (-90) = 0 := by decide
theorem qcos_n180 : qcos (-180) = -1 := by decide
theorem qcos_n270 : qcos (-270) = 0 := by decide
theorem qcos_n360 : qcos (-360) = 1 := by decide
theorem qsin_0 : qsin 0 = 0 := by decide
theorem qsin_90 : qsin 90 = 1 := by decide
theorem qsin_180 : qsin 180 = 0 := by decide
theorem qsin_270 : qsin 270 = -1 := by decide
theorem qsin_360 : qsin 360 = 0 := by decide
theorem qsin_n90 : qsin (-90) = -1 := by decide
theorem qsin_n180 : qsin (-180) = 0 := by decide
theorem qsin_n270 : qsin (-270) = 1 := by decide
theorem qsin_n360 : qsin (-360) = 0 := by decide

set_option maxHeartbeats 1000000 in
theorem cornerGeometry_start (start : Pnt) (sz : Siz) (shape kind : String)
    (cw : Bool) : (cornerGeometry start sz shape kind cw).start = start := by
  unfold cornerGeometry
  split_ifs <;> rfl

theorem cornerGeometry_cur (start : Pnt) (sz : Siz) (shape kind : String) (cw : Bool)
    (hs : shape ∈ CornerPath.VALID_SHAPES) (hk : kind ∈ CornerPath.VALID_KINDS) :
    (cornerGeometry start sz shape kind cw).cur = start + cornerVertexOffset kind cw sz := by
  fin_cases hs <;> fin_cases hk <;> cases cw <;>
    simp [cornerGeometry, cornerVertexOffset, GxPainterPath.new, GxPainterPath.lineToInc,
      GxPainterPath.arcTo, arcPointAt, Pnt.add_def,
      qcos_0, qcos_90, qcos_180, qcos_270, qcos_360, qcos_n90, qcos_n180, qcos_n270, qcos_n360,
      qsin_0, qsin_90, qsin_180, qsin_270, qsin_360, qsin_n90, qsin_n180, qsin_n270, qsin_n360] <;>
    (try constructor) <;> (try ring)

theorem CornerPath_start (start : Pnt) (sz : Siz) (shape kind : String) (cw : Bool)
    (p : GxPainterPath) (h : CornerPath start sz shape kind cw = some p) :
    p.start = start := by
  unfold CornerPath at h
  split_ifs at h
  cases h
  exact cornerGeometry_start start sz shape kind cw

theorem CornerPath_cur (start : Pnt) (sz : Siz) (shape kind : String) (cw : Bool)
    (p : GxPainterPath) (h : CornerPath start sz shape kind cw = some p) :
    p.cur = start + cornerVertexOffset kind cw sz := by
  unfold CornerPath at h
  split_ifs at h with hv
  cases h
  exact cornerGeometry_cur start sz shape kind cw hv.2 hv.1

theorem GxPainterPath.new_start (p : Pnt) : (GxPainterPath.new p).start = p := rfl

theorem GxPainterPath.lineToInc_start (pa : GxPainterPath) (dx dy : ℚ) :
    (pa.lineToInc dx dy).start = pa.start := rfl

theorem GxPainterPath.arcTo_start (pa : GxPainterPath) (x0 y0 w0 h0 : ℚ) (a1 sw : ℤ) :
    (pa.arcTo x0 y0 w0 h0 a1 sw).start = pa.start := rfl

theorem GxPainterPath.connectPath_start (pa q : GxPainterPath) :
    (pa.connectPath q).start = pa.start := rfl

theorem GxPainterPath.connectPath_cur (pa q : GxPainterPath) :
    (pa.connectPath q).cur = q.cur + Pnt.mk (pa.cur.x - q.start.x) (pa.cur.y - q.start.y) := rfl

theorem secondCharIsJ_pi : secondCharIsJ "+i" = false := by decide
theorem secondCharIsJ_mi : secondCharIsJ "-i" = false := by decide
theorem secondCharIsJ_pj : secondCharIsJ "+j" = true := by decide
theorem secondCharIsJ_mj : secondCharIsJ "-j" = true := by decide


set_option maxHeartbeats 2000000 in
theorem notchGeometry_cur (start : Pnt) (sz : Siz) (name : String) (tf : ℚ)
    (dir facing : String) (hn : name ∈ NotchPath.validNames)
    (hd : dir ∈ NotchPath.VALID_DIRECTIONS)
    (hf : if secondCharIsJ dir then facing ∈ (["left", "right"] : List String)
      else facing ∈ (["up", "down"] : List String)) :
    (notchGeometry start sz name tf dir facing).cur = start + axisOffset dir sz ∧
      (notchGeometry start sz name tf dir facing).start = start := by
  rw [validNames_eq] at hn
  fin_cases hn <;> fin_cases hd <;>
    simp only [secondCharIsJ_pi, secondCharIsJ_mi, secondCharIsJ_pj, secondCharIsJ_mj,
      Bool.false_eq_true, Bool.true_eq_false, if_true, if_false, ite_true, ite_false,
      eq_self_iff_true] at hf <;>
    simp at hf <;>
    rcases hf with rfl | rfl <;>
    simp [notchGeometry, axisOffset, GxPainterPath.new, GxPainterPath.lineToInc,
      GxPainterPath.arcTo, arcPointAt, Pnt.add_def, secondCharIsJ,
      qcos_0, qcos_90, qcos_180, qcos_270, qcos_360, qcos_n90, qcos_n180, qcos_n270, qcos_n360,
      qsin_0, qsin_90, qsin_180, qsin_270, qsin_360, qsin_n90, qsin_n180, qsin_n270, qsin_n360] <;>
    (try constructor) <;> (try ring)

theorem notchPathV_some (start : Pnt) (sz : Siz) (name : String) (tf : ℚ)
    (dir facing : String) (p : GxPainterPath)
    (h : notchPathV start sz name tf dir facing = some p) :
    p.cur = start + axisOffset dir sz ∧ p.start = start := by
  unfold notchPathV at h
  by_cases h1 : dir ∈ NotchPath.VALID_DIRECTIONS
  · rw [if_pos h1] at h
    by_cases h2 : if secondCharIsJ dir then facing ∈ (["left", "right"] : List String)
      else facing ∈ (["up", "down"] : List String)
    · rw [if_pos h2] at h
      by_cases h3 : name ∈ NotchPath.validNames ∧ 0 ≤ tf ∧ tf ≤ 1
      · rw [if_pos h3] at h
        injection h with h
        subst h
        exact notchGeometry_cur start sz name tf dir facing h3.1 h1 h2
      · rw [if_neg h3] at h
        cases h
    · rw [if_neg h2] at h
      cases h
  · rw [if_neg h1] at h
    cases h

set_option maxHeartbeats 1000000 in
theorem cornerGeometry_arc_elems (start : Pnt) (sz : Siz) (kind : String) (cw : Bool)
    (hk : kind ∈ CornerPath.VALID_KINDS) :
    (cornerGeometry start sz "arc" kind cw).elems =
      [PathElem.arcSeg (start.x + (cornerArcBoxOffset kind cw sz).x)
        (start.y + (cornerArcBoxOffset kind cw sz).y) (2 * sz.w) (2 * sz.h)
        (cornerArcAngles kind cw).1 (cornerArcAngles kind cw).2] := by
  fin_cases hk <;> cases cw <;>
    simp [cornerGeometry, cornerArcBoxOffset, cornerArcAngles, GxPainterPath.new,
      GxPainterPath.arcTo, arcPointAt] <;>
    (repeat' constructor) <;> (try ring)

set_option maxHeartbeats 2000000 in
theorem notchGeometry_trig_elems (start : Pnt) (sz : Siz) (tf : ℚ)
    (dir facing : String) (hd : dir ∈ NotchPath.VALID_DIRECTIONS)
    (hf : if secondCharIsJ dir then facing ∈ (["left", "right"] : List String)
      else facing ∈ (["up", "down"] : List String)) :
    (notchGeometry start sz "trig" tf dir facing).elems =
      linesFromRel start (trigNotchDeltas dir facing sz tf) ∧
      (trigNotchDeltas dir facing sz tf).length = 3 := by
  fin_cases hd <;>
    simp only [secondCharIsJ_pi, secondCharIsJ_mi, secondCharIsJ_pj, secondCharIsJ_mj,
      Bool.false_eq_true, Bool.true_eq_false, if_true, if_false, ite_true, ite_false,
      eq_self_iff_true] at hf <;>
    simp at hf <;>
    rcases hf with rfl | rfl <;>
    simp [notchGeometry, trigNotchDeltas, linesFromRel, GxPainterPath.new,
      GxPainterPath.lineToInc, secondCharIsJ_pi, secondCharIsJ_mi, secondCharIsJ_pj,
      secondCharIsJ_mj, secondCharIsJ]

theorem pyLower_pi : pyLower "+i" = "+i" := by decide
theorem pyLower_mi : pyLower "-i" = "-i" := by decide
theorem pyLower_pj : pyLower "+j" = "+j" := by decide
theorem pyLower_mj : pyLower "-j" = "-j" := by decide

theorem splitOnSlash_ne_nil (l : List Char) : splitOnSlash l ≠ [] := by
  cases l with
  | nil => simp [splitOnSlash]
  | cons c cs =>
    unfold splitOnSlash
    match h : splitOnSlash cs with
    | [] => simp
    | h2 :: t => split_ifs <;> simp

theorem splitOnSlash_single (l n : List Char) (h : splitOnSlash l = [n]) : l = n := by
  induction l generalizing n with
  | nil =>
    simp [splitOnSlash] at h
    simp [h]
  | cons c cs ih =>
    unfold splitOnSlash at h
    rcases hs : splitOnSlash cs with _ | ⟨h2, t⟩
    · exact absurd hs (splitOnSlash_ne_nil cs)
    · rw [hs] at h
      split_ifs at h with hc
      · simp at h
      · simp at h
        obtain ⟨h1, h2eq⟩ := h
        subst h2eq
        rw [ih h2 hs]
        exact h1

theorem parseNameFactor_isSome_iff (n f : List Char) :
    (parseNameFactor n f).isSome ↔
      ((⟨pyStrip n⟩ : String) ∈ NotchPath.validNames ∧
        (pyStrip f = [] ∨ ∃ v : ℚ, parsePyFloat f = some v ∧ 0 ≤ v ∧ v ≤ 1)) := by
  unfold parseNameFactor
  by_cases hn : (⟨pyStrip n⟩ : String) ∈ NotchPath.validNames
  · rw [if_pos hn]
    by_cases he : pyStrip f = []
    · simp [he, hn]
    · simp only [he, if_false, ite_false]
      cases hp : parsePyFloat f with
      | none => simp [hn, he, hp]
      | some v =>
        by_cases hr : 0 ≤ v ∧ v ≤ 1
        · simp [hn, he, hp, hr]
        · simp [hn, he, hp, hr]
  · simp [hn]

theorem parseNotchShape_isSome_iff (shape : String) :
    (parseNotchShape shape).isSome ↔ shapeTextOk shape := by
  unfold parseNotchShape shapeTextOk
  rcases hs : splitOnSlash (pyStrip shape.data) with _ | ⟨n, _ | ⟨f, t⟩⟩
  · exact absurd hs (splitOnSlash_ne_nil _)
  · have hl := splitOnSlash_single _ _ hs
    subst hl
    simp [hs]
  · simp [hs, parseNameFactor_isSome_iff]

theorem parseNotchShape_some_valid (shape : String) (n : String) (tf : ℚ)
    (h : parseNotchShape shape = some (n, tf)) :
    n ∈ NotchPath.validNames ∧ 0 ≤ tf ∧ tf ≤ 1 := by
  unfold parseNotchShape at h
  dsimp only at h
  split_ifs at h with h1 h2
  · injection h with h
    cases h
    exact ⟨h2, le_refl 0, zero_le_one⟩
  · unfold parseNameFactor at h
    split_ifs at h with h3 h4
    · rw [show (match some (0 : ℚ) with
          | none => none
          | some tf => if 0 ≤ tf ∧ tf ≤ 1 then
              some ((⟨pyStrip ((splitOnSlash (pyStrip shape.data)).headD [])⟩ : String), tf)
            else none) =
          if (0 : ℚ) ≤ 0 ∧ (0 : ℚ) ≤ 1 then
            some ((⟨pyStrip ((splitOnSlash (pyStrip shape.data)).headD [])⟩ : String), (0 : ℚ))
          else none from rfl,
        if_pos (by norm_num : (0 : ℚ) ≤ 0 ∧ (0 : ℚ) ≤ 1)] at h
      injection h with h
      injection h with ha hb
      subst ha
      subst hb
      exact ⟨h3, by norm_num⟩
    · cases hp : parsePyFloat ((splitOnSlash (pyStrip shape.data)).getD 1 []) with
      | none =>
        rw [hp] at h
        simp at h
      | some v =>
        rw [hp] at h
        simp only [] at h
        split_ifs at h with h5
        injection h with h
        cases h
        exact ⟨h3, h5⟩

theorem GxPainterPath.lineToInc_cur (pa : GxPainterPath) (dx dy : ℚ) :
    (pa.lineToInc dx dy).cur = ⟨pa.cur.x + dx, pa.cur.y + dy⟩ := rfl

theorem GxPainterPath.new_cur (p : Pnt) : (GxPainterPath.new p).cur = p := rfl

theorem opt_map_bind {α β γ : Type} (f : α → β) (o : Option α) (k : β → Option γ) :
    (o.map f).bind k = o.bind (fun a => k (f a)) := by
  cases o <;> rfl

theorem buildBorder_eq_runOutline (st : ExState) : buildBorder st = runOutline st := by
  unfold buildBorder runOutline outlineSteps
  simp only [List.foldlM_cons, List.foldlM_nil, runStep, ExState.notchData,
    ExState.cornerSize, ExState.cornerShape, Option.bind_eq_bind, Option.map_eq_map,
    opt_map_bind, Option.some_bind, Option.bind_some]

set_option maxHeartbeats 2000000 in
theorem buildBorder_cur (st : ExState) (p : GxPainterPath)
    (h : buildBorder st = some p) :
    p.cur = ⟨100 + (st.nd_top.size.w - st.nd_bottom.size.w) + (st.cs_tr.w - st.cs_br.w) +
        (st.cs_tl.w - st.cs_bl.w),
      (st.cs_tr.h - st.cs_tl.h) + (st.cs_br.h - st.cs_bl.h) +
        (st.nd_right.size.h - st.nd_left.size.h)⟩ ∧
      p.start = ⟨100, 0⟩ := by
  unfold buildBorder getNotch at h
  simp only [Option.bind_eq_bind, Option.bind_eq_some, Option.pure_def,
    Option.some.injEq, pyLower_pi, pyLower_mi, pyLower_pj, pyLower_mj] at h
  obtain ⟨n1, hn1, c1, hc1, n2, hn2, c2, hc2, n3, hn3, c3, hc3, n4, hn4, c4, hc4, hp⟩ := h
  subst hp
  obtain ⟨hn1c, hn1s⟩ := notchPathV_some _ _ _ _ _ _ _ hn1
  obtain ⟨hn2c, hn2s⟩ := notchPathV_some _ _ _ _ _ _ _ hn2
  obtain ⟨hn3c, hn3s⟩ := notchPathV_some _ _ _ _ _ _ _ hn3
  obtain ⟨hn4c, hn4s⟩ := notchPathV_some _ _ _ _ _ _ _ hn4
  have hc1c := CornerPath_cur _ _ _ _ _ _ hc1
  have hc1s := CornerPath_start _ _ _ _ _ _ hc1
  have hc2c := CornerPath_cur _ _ _ _ _ _ hc2
  have hc2s := CornerPath_start _ _ _ _ _ _ hc2
  have hc3c := CornerPath_cur _ _ _ _ _ _ hc3
  have hc3s := CornerPath_start _ _ _ _ _ _ hc3
  have hc4c := CornerPath_cur _ _ _ _ _ _ hc4
  have hc4s := CornerPath_start _ _ _ _ _ _ hc4
  constructor
  · simp only [GxPainterPath.connectPath_cur, GxPainterPath.connectPath_start,
      GxPainterPath.lineToInc_cur, GxPainterPath.lineToInc_start, GxPainterPath.new_cur,
      GxPainterPath.new_start, GxPainterPath.currentPosition,
      hn1c, hn1s, hn2c, hn2s, hn3c, hn3s, hn4c, hn4s,
      hc1c, hc1s, hc2c, hc2s, hc3c, hc3s, hc4c, hc4s,
      axisOffset, cornerVertexOffset, Pnt.add_def]
    simp
    constructor <;> ring
  · simp only [GxPainterPath.connectPath_start, GxPainterPath.lineToInc_start,
      GxPainterPath.new_start]

theorem notchPathV_inv (start : Pnt) (sz : Siz) (name : String) (tf : ℚ)
    (dir facing : String) (p : GxPainterPath)
    (h : notchPathV start sz name tf dir facing = some p) :
    dir ∈ NotchPath.VALID_DIRECTIONS ∧
      (if secondCharIsJ dir then facing ∈ (["left", "right"] : List String)
        else facing ∈ (["up", "down"] : List String)) ∧
      (name ∈ NotchPath.validNames ∧ 0 ≤ tf ∧ tf ≤ 1) ∧
      p = notchGeometry start sz name tf dir facing := by
  unfold notchPathV at h
  by_cases h1 : dir ∈ NotchPath.VALID_DIRECTIONS
  · rw [if_pos h1] at h
    by_cases h2 : if secondCharIsJ dir then facing ∈ (["left", "right"] : List String)
      else facing ∈ (["up", "down"] : List String)
    · rw [if_pos h2] at h
      by_cases h3 : name ∈ NotchPath.validNames ∧ 0 ≤ tf ∧ tf ≤ 1
      · rw [if_pos h3] at h
        injection h with h
        exact ⟨h1, h2, h3, h.symm⟩
      · rw [if_neg h3] at h
        cases h
    · rw [if_neg h2] at h
      cases h
  · rw [if_neg h1] at h
    cases h

theorem buildBorder_congr (st1 st2 : ExState)
    (h1 : st1.cs_tl = st2.cs_tl) (h2 : st1.cs_tr = st2.cs_tr)
    (h3 : st1.cs_bl = st2.cs_bl) (h4 : st1.cs_br = st2.cs_br)
    (h5 : st1.csh_tl = st2.csh_tl) (h6 : st1.csh_tr = st2.csh_tr)
    (h7 : st1.csh_bl = st2.csh_bl) (h8 : st1.csh_br = st2.csh_br)
    (h9 : st1.nd_top = st2.nd_top) (h10 : st1.nd_bottom = st2.nd_bottom)
    (h11 : st1.nd_left = st2.nd_left) (h12 : st1.nd_right = st2.nd_right) :
    buildBorder st1 = buildBorder st2 := by
  unfold buildBorder
  rw [h1, h2, h3, h4, h5, h6, h7, h8, h9, h10, h11, h12]

/- ------------------------------------------------------------------ -/
/- Claim theorems                                                     -/
/- ------------------------------------------------------------------ -/

unseal Rat.mul Rat.inv Rat.add Rat.sub in
/-- Claim C1, counterexample: the claim states that the final cursor of
a CornerPath is start + cornerVertexOffset(kind, size) with the offset
determined by kind and size alone (besides being independent of shape).
That fails: two trig top-right corners of size 1 x 1 starting at the
origin, differing only in the clockwise flag, end at (1, 1) and at
(-1, -1) respectively, so no offset function of kind and size alone can
give both final cursors. -/
theorem C1_counterexample :
    (CornerPath ⟨0, 0⟩ ⟨1, 1⟩ "trig" "top-right" true).map GxPainterPath.cur =
        some ⟨1, 1⟩ ∧
      (CornerPath ⟨0, 0⟩ ⟨1, 1⟩ "trig" "top-right" false).map GxPainterPath.cur =
        some ⟨-1, -1⟩ ∧
      (Pnt.mk 1 1 ≠ Pnt.mk (-1) (-1)) := by
  refine ⟨by decide, by decide, by decide⟩

/-- Claim C1, amended: for every valid combination of shape, kind,
clockwise flag and size, the CornerPath constructed from a start point
ends with its final cursor at start + cornerVertexOffset(kind, winding,
size), the opposite vertex of the corner rectangle, with the offset
determined by kind, winding and size alone, independent of shape. -/
theorem C1_theorem (start : Pnt) (sz : Siz) (shape kind : String) (cw : Bool)
    (p : GxPainterPath) (h : CornerPath start sz shape kind cw = some p) :
    p.cur = start + cornerVertexOffset kind cw sz :=
  CornerPath_cur start sz shape kind cw p h

unseal Rat.mul Rat.inv Rat.add Rat.sub in
/-- Claim C1, witness: the amended theorem applied to a concrete trig
top-right clockwise corner of size 2 x 3. -/
theorem C1_witness :
    (GxPainterPath.mk ⟨0, 0⟩ ⟨2, 3⟩ [PathElem.lineTo ⟨2, 3⟩]).cur =
      Pnt.mk 0 0 + cornerVertexOffset "top-right" true ⟨2, 3⟩ :=
  C1_theorem ⟨0, 0⟩ ⟨2, 3⟩ "trig" "top-right" true
    (GxPainterPath.mk ⟨0, 0⟩ ⟨2, 3⟩ [PathElem.lineTo ⟨2, 3⟩]) (by decide)

/-- Claim C2: for every NotchPath that constructs successfully, the
final cursor equals start + axisOffset(direction, size): (+W, 0) for
direction +i, (-W, 0) for -i, (0, +H) for +j and (0, -H) for -j, so
the cross-axis protrusion contributes zero net displacement. -/
theorem C2_theorem (start : Pnt) (sz : Siz) (shape dir facing : String)
    (p : GxPainterPath) (h : NotchPath start sz shape dir facing = some p) :
    p.cur = start + axisOffset (pyLower dir) sz := by
  unfold NotchPath at h
  cases hps : parseNotchShape shape with
  | none =>
    rw [hps] at h
    cases h
  | some ntf =>
    rw [hps] at h
    exact (notchPathV_some _ _ _ _ _ _ _ h).1

unseal Rat.mul Rat.inv Rat.add Rat.sub in
/-- Claim C2, witness: the theorem applied to the concrete notch
NotchPath((0,0), (200,50), "trig/0.4", +i, up), whose final cursor is
(0,0) + axisOffset(+i, (200,50)) = (200, 0). -/
theorem C2_witness :
    (GxPainterPath.mk ⟨0, 0⟩ ⟨200, 0⟩
        [PathElem.lineTo ⟨60, -50⟩, PathElem.lineTo ⟨140, -50⟩, PathElem.lineTo ⟨200, 0⟩]).cur =
      Pnt.mk 0 0 + axisOffset (pyLower "+i") ⟨200, 50⟩ :=
  C2_theorem ⟨0, 0⟩ ⟨200, 50⟩ "trig/0.4" "+i" "up"
    (GxPainterPath.mk ⟨0, 0⟩ ⟨200, 0⟩
      [PathElem.lineTo ⟨60, -50⟩, PathElem.lineTo ⟨140, -50⟩, PathElem.lineTo ⟨200, 0⟩])
    (by decide)

/-- Claim C4: for CornerPath with shape arc, the emitted path is a
single arc inscribed in a 2W x 2H box positioned relative to the cursor
at call time, and its start-angle/sweep-angle pair is exactly the
table's entry for the kind and winding: clockwise top-right (-270,-90),
bottom-right (0,-90), bottom-left (-90,-90), top-left (-180,-90);
counter-clockwise top-left (90,90), bottom-left (180,90), bottom-right
(270,90), top-right (0,90), in degrees. -/
theorem C4_theorem (start : Pnt) (sz : Siz) (kind : String) (cw : Bool)
    (p : GxPainterPath) (h : CornerPath start sz "arc" kind cw = some p) :
    p.elems =
      [PathElem.arcSeg (start.x + (cornerArcBoxOffset kind cw sz).x)
        (start.y + (cornerArcBoxOffset kind cw sz).y) (2 * sz.w) (2 * sz.h)
        (cornerArcAngles kind cw).1 (cornerArcAngles kind cw).2] := by
  unfold CornerPath at h
  split_ifs at h with hv
  cases h
  exact cornerGeometry_arc_elems start sz kind cw hv.1

unseal Rat.mul Rat.inv Rat.add Rat.sub in
/-- Claim C4, witness: the theorem applied to a concrete clockwise arc
bottom-left corner of size 5 x 7 starting at (10, 20). -/
theorem C4_witness :
    (GxPainterPath.mk ⟨10, 20⟩ (arcPointAt 5 6 10 14 (-180))
        [PathElem.arcSeg 5 6 10 14 (-90) (-90)]).elems =
      [PathElem.arcSeg ((10 : ℚ) + (cornerArcBoxOffset "bottom-left" true ⟨5, 7⟩).x)
        ((20 : ℚ) + (cornerArcBoxOffset "bottom-left" true ⟨5, 7⟩).y)
        (2 * (5 : ℚ)) (2 * (7 : ℚ))
        (cornerArcAngles "bottom-left" true).1 (cornerArcAngles "bottom-left" true).2] :=
  C4_theorem ⟨10, 20⟩ ⟨5, 7⟩ "bottom-left" true
    (GxPainterPath.mk ⟨10, 20⟩ (arcPointAt 5 6 10 14 (-180))
      [PathElem.arcSeg 5 6 10 14 (-90) (-90)]) (by decide)

/-- Claim C5: updateMetrics rebuilds the outline path from scratch in
the fixed order of outlineSteps (top edge, top notch +i, top edge,
top-right corner, right edge, right notch +j, right edge, bottom-right
corner, bottom edge -i, bottom notch, bottom edge, bottom-left corner,
left edge -j, left notch, left edge, top-left corner), every notch and
corner sub-path constructed at the path's current cursor position, and
afterwards stores the rebuilt path's bounding-box width and height as
the item's width and height. -/
theorem C5_theorem (st : ExState) :
    updateMetrics st =
      (runOutline st).map (fun p =>
        { st with border_path := some p, width := p.bbWidth, height := p.bbHeight }) := by
  unfold updateMetrics
  rw [buildBorder_eq_runOutline]
  cases runOutline st <;> rfl

/-- Claim C8: running updateMetrics on two states with identical
corner_size, corner_shape and notch_data parameter records produces
identical observable results: the same border path (hence the same
segment list) and the same width and height; in particular running it
twice in a row from the same records gives identical results both
times. -/
theorem C8_theorem (st1 st2 : ExState)
    (h1 : st1.cs_tl = st2.cs_tl) (h2 : st1.cs_tr = st2.cs_tr)
    (h3 : st1.cs_bl = st2.cs_bl) (h4 : st1.cs_br = st2.cs_br)
    (h5 : st1.csh_tl = st2.csh_tl) (h6 : st1.csh_tr = st2.csh_tr)
    (h7 : st1.csh_bl = st2.csh_bl) (h8 : st1.csh_br = st2.csh_br)
    (h9 : st1.nd_top = st2.nd_top) (h10 : st1.nd_bottom = st2.nd_bottom)
    (h11 : st1.nd_left = st2.nd_left) (h12 : st1.nd_right = st2.nd_right) :
    (updateMetrics st1).map metricsView = (updateMetrics st2).map metricsView := by
  have hb := buildBorder_congr st1 st2 h1 h2 h3 h4 h5 h6 h7 h8 h9 h10 h11 h12
  unfold updateMetrics
  rw [hb]
  cases buildBorder st2 <;> simp [metricsView]

/-- Claim C8, witness: the theorem applied to the default example state
paired with itself. -/
theorem C8_witness :
    (updateMetrics defaultExState).map metricsView =
      (updateMetrics defaultExState).map metricsView :=
  C8_theorem defaultExState defaultExState rfl rfl rfl rfl rfl rfl rfl rfl rfl rfl rfl rfl

/-- Claim C9: NotchPath's direction and facing arguments are
case-insensitive: both are lowercased before validation and dispatch,
so any letter-case variants of the lowercase forms build exactly the
same path (or fail the same way) as the lowercase forms themselves. -/
theorem C9_theorem (start : Pnt) (sz : Siz) (shape dir facing dirV facV : String)
    (hv1 : pyLower dirV = dirV) (hv2 : pyLower facV = facV)
    (h1 : pyLower dir = dirV) (h2 : pyLower facing = facV) :
    NotchPath start sz shape dir facing = NotchPath start sz shape dirV facV := by
  unfold NotchPath
  cases parseNotchShape shape with
  | none => rfl
  | some ntf => rw [h1, h2, hv1, hv2]

/-- Claim C9, witness: the theorem applied to the variants "+J" and
"LEFT" of the lowercase direction "+j" and facing "left". -/
theorem C9_witness :
    NotchPath ⟨0, 0⟩ ⟨50, 150⟩ "arc/0.7" "+J" "LEFT" =
      NotchPath ⟨0, 0⟩ ⟨50, 150⟩ "arc/0.7" "+j" "left" :=
  C9_theorem ⟨0, 0⟩ ⟨50, 150⟩ "arc/0.7" "+J" "LEFT" "+j" "left"
    (by decide) (by decide) (by decide) (by decide)

unseal Rat.mul Rat.inv Rat.add Rat.sub in
/-- Claim C10: a NotchPath shape string with more than one slash is not
rejected outright: the parser looks only at the first two
slash-separated fields (the name and the factor), so any further fields
are silently ignored; in particular "trig/0.4/junk" parses to the name
trig with factor 0.4 and the construction succeeds, giving the same
path as "trig/0.4". -/
theorem C10_theorem :
    (∀ s : String, 2 ≤ (splitOnSlash (pyStrip s.data)).length →
        parseNotchShape s =
          parseNameFactor ((splitOnSlash (pyStrip s.data)).headD [])
            ((splitOnSlash (pyStrip s.data)).getD 1 [])) ∧
      parseNotchShape "trig/0.4/junk" = some ("trig", 2 / 5) ∧
      NotchPath ⟨0, 0⟩ ⟨200, 50⟩ "trig/0.4/junk" "+i" "up" =
        NotchPath ⟨0, 0⟩ ⟨200, 50⟩ "trig/0.4" "+i" "up" ∧
      (NotchPath ⟨0, 0⟩ ⟨200, 50⟩ "trig/0.4/junk" "+i" "up").isSome = true := by
  refine ⟨?_, by decide, by decide, by decide⟩
  intro s h
  unfold parseNotchShape
  dsimp only
  rw [if_neg (by omega)]

/-- Claim C10, witness: the first part of the theorem applied to the
concrete shape string "trig/0.4/junk". -/
theorem C10_witness :
    parseNotchShape "trig/0.4/junk" =
      parseNameFactor ((splitOnSlash (pyStrip "trig/0.4/junk".data)).headD [])
        ((splitOnSlash (pyStrip "trig/0.4/junk".data)).getD 1 []) :=
  C10_theorem.1 "trig/0.4/junk" (by decide)

theorem facing_cond_iff (dL fL : String) (hd : dL ∈ NotchPath.VALID_DIRECTIONS) :
    ((if secondCharIsJ dL then fL ∈ (["left", "right"] : List String)
      else fL ∈ (["up", "down"] : List String)) ↔ facingMatches dL fL) := by
  fin_cases hd <;>
    simp [secondCharIsJ_pi, secondCharIsJ_mi, secondCharIsJ_pj, secondCharIsJ_mj, facingMatches]

unseal Rat.mul Rat.inv Rat.add Rat.sub in
/-- Claim C3: a NotchPath with trig shape consists of exactly three
line segments, a spacing leg, the parallel top of length
tl = factor * span, and a second spacing leg, whose displacements
follow the 8-entry direction x facing table trigNotchDeltas with
ts = (span - tl) / 2; in particular
NotchPath((0,0), (200,50), "trig/0.4", +i, up) yields the segments
Line(60,-50), Line(80,0), Line(60,50) and final cursor (200, 0). -/
theorem C3_theorem :
    (∀ (start : Pnt) (sz : Siz) (tf : ℚ) (dir facing : String) (p : GxPainterPath),
        notchPathV start sz "trig" tf dir facing = some p →
        p.elems = linesFromRel start (trigNotchDeltas dir facing sz tf) ∧
          (trigNotchDeltas dir facing sz tf).length = 3) ∧
      NotchPath ⟨0, 0⟩ ⟨200, 50⟩ "trig/0.4" "+i" "up" =
        some ⟨⟨0, 0⟩, ⟨200, 0⟩, linesFromRel ⟨0, 0⟩ [(60, -50), (80, 0), (60, 50)]⟩ := by
  refine ⟨?_, by decide⟩
  intro start sz tf dir facing p h
  obtain ⟨hd, hf, _, rfl⟩ := notchPathV_inv _ _ _ _ _ _ _ h
  exact notchGeometry_trig_elems start sz tf dir facing hd hf

unseal Rat.mul Rat.inv Rat.add Rat.sub in
/-- Claim C3, witness: the general part applied to the example notch
NotchPath((0,0), (200,50), trig with factor 0.4, +i, up). -/
theorem C3_witness :
    (GxPainterPath.mk ⟨0, 0⟩ ⟨200, 0⟩
        [PathElem.lineTo ⟨60, -50⟩, PathElem.lineTo ⟨140, -50⟩,
          PathElem.lineTo ⟨200, 0⟩]).elems =
      linesFromRel ⟨0, 0⟩ (trigNotchDeltas "+i" "up" ⟨200, 50⟩ (2 / 5)) ∧
      (trigNotchDeltas "+i" "up" ⟨200, 50⟩ (2 / 5)).length = 3 :=
  C3_theorem.1 ⟨0, 0⟩ ⟨200, 50⟩ (2 / 5) "+i" "up"
    (GxPainterPath.mk ⟨0, 0⟩ ⟨200, 0⟩
      [PathElem.lineTo ⟨60, -50⟩, PathElem.lineTo ⟨140, -50⟩, PathElem.lineTo ⟨200, 0⟩])
    (by decide)

/-- Claim C6: if the top and bottom notch sizes have equal widths, the
left and right notch sizes have equal heights, the left corners and
right corners have pairwise equal widths and the top corners and bottom
corners pairwise equal heights, then the path rebuilt by a successful
updateMetrics is closed: its final cursor equals its start point
(100, 0). -/
theorem C6_theorem (st : ExState) (st' : ExState)
    (h1 : st.nd_top.size.w = st.nd_bottom.size.w)
    (h2 : st.nd_left.size.h = st.nd_right.size.h)
    (h3 : st.cs_tl.w = st.cs_bl.w) (h4 : st.cs_tr.w = st.cs_br.w)
    (h5 : st.cs_tl.h = st.cs_tr.h) (h6 : st.cs_bl.h = st.cs_br.h)
    (h : updateMetrics st = some st') :
    Option.map GxPainterPath.cur st'.border_path = some ⟨100, 0⟩ ∧
      Option.map GxPainterPath.start st'.border_path = some ⟨100, 0⟩ := by
  unfold updateMetrics at h
  cases hb : buildBorder st with
  | none =>
    rw [hb] at h
    cases h
  | some p =>
    rw [hb] at h
    injection h with h
    subst h
    obtain ⟨hc, hs⟩ := buildBorder_cur st p hb
    constructor
    · simp only [Option.map_some', hc, h1, h2, h3, h4, h5, h6, Option.some.injEq]
      apply Pnt.ext <;> ring
    · simp [hs]

unseal Rat.mul Rat.inv Rat.add Rat.sub in
/-- Claim C6, witness: the theorem applied to the default example
state, whose opposing notch and corner records are equal. -/
theorem C6_witness :
    Option.map (fun s => Option.map GxPainterPath.cur s.border_path)
        (updateMetrics defaultExState) = some (some ⟨100, 0⟩) := by
  cases hu : updateMetrics defaultExState with
  | none =>
    have hsome : (updateMetrics defaultExState).isSome := by decide
    rw [hu] at hsome
    cases hsome
  | some st' =>
    simp only [Option.map_some']
    exact congrArg some
      (C6_theorem defaultExState st' rfl rfl rfl rfl rfl rfl hu).1

/-- Claim C7: given a validly lowercased direction, NotchPath
construction succeeds exactly when the facing matches the direction's
axis and the shape string is valid, namely the shape name is trig or
arc and the factor text, when present and nonempty, parses as a number
in [0.0, 1.0]; an omitted or empty factor defaults to 0.0 and the
construction succeeds. -/
theorem C7_theorem :
    (∀ (start : Pnt) (sz : Siz) (shape dir facing : String),
        pyLower dir ∈ NotchPath.VALID_DIRECTIONS →
        ((NotchPath start sz shape dir facing).isSome ↔
          facingMatches (pyLower dir) (pyLower facing) ∧ shapeTextOk shape)) ∧
      parseNotchShape "trig" = some ("trig", 0) ∧
      parseNotchShape "trig/" = some ("trig", 0) ∧
      parseNotchShape "arc" = some ("arc", 0) ∧
      parseNotchShape "arc/" = some ("arc", 0) := by
  refine ⟨?_, by decide, by decide, by decide, by decide⟩
  intro start sz shape dir facing hd
  unfold NotchPath
  cases hps : parseNotchShape shape with
  | none =>
    have hns : ¬ shapeTextOk shape := by
      rw [← parseNotchShape_isSome_iff, hps]
      simp
    simp [hns]
  | some ntf =>
    obtain ⟨n, tf⟩ := ntf
    have hst : shapeTextOk shape := by
      rw [← parseNotchShape_isSome_iff, hps]
      rfl
    obtain ⟨hn, hr⟩ := parseNotchShape_some_valid shape n tf hps
    dsimp only
    unfold notchPathV
    rw [if_pos hd]
    have hiff := facing_cond_iff (pyLower dir) (pyLower facing) hd
    by_cases hfc : facingMatches (pyLower dir) (pyLower facing)
    · rw [if_pos (hiff.2 hfc), if_pos ⟨hn, hr⟩]
      simp [hfc, hst]
    · rw [if_neg (fun hc => hfc (hiff.1 hc))]
      simp [hfc]

/-- Claim C7, witness: the characterization applied to the concrete
arguments shape "trig/0.4", direction "+i", facing "up". -/
theorem C7_witness :
    (NotchPath ⟨0, 0⟩ ⟨200, 50⟩ "trig/0.4" "+i" "up").isSome ↔
      facingMatches (pyLower "+i") (pyLower "up") ∧ shapeTextOk "trig/0.4" :=
  C7_theorem.1 ⟨0, 0⟩ ⟨200, 50⟩ "trig/0.4" "+i" "up" (by decide)
